import Mathlib

/-!
Shallow embedding of the WiiM-Presto orchestration core (MicroPython source):
`input_handler.py`, `touch_manager.py`, `wiim_client.py`, and the `monitor`
loop of `main.py`.  Machine integers (millisecond tick counters, coordinates)
are modelled as `Int`; `time.ticks_diff(now, t)` is modelled as `now - t`
(the non-wrapping regime of the tick counter).  Hex-decoding of metadata
fields (`utils.hex_to_text`) is treated as pre-applied: the embedded status
record carries the already-decoded `title`/`artist`/`album` text, since every
property below depends only on equality of those decoded values.
-/

namespace InputHandler

/-- A rectangular touch region, as constructed by `touch.Button(x, y, w, h)`. -/
structure Button where
  x : Int
  y : Int
  w : Int
  h : Int
deriving Repr, DecidableEq

/-- `prev_button = Button(60, BUTTON_Y, BUTTON_WIDTH, BUTTON_HEIGHT)` (input_handler.py). -/
def prev_button : Button := ⟨60, 390, 100, 60⟩

/-- `pause_button = Button(190, BUTTON_Y, BUTTON_WIDTH, BUTTON_HEIGHT)`. -/
def pause_button : Button := ⟨190, 390, 100, 60⟩

/-- `next_button = Button(320, BUTTON_Y, BUTTON_WIDTH, BUTTON_HEIGHT)`. -/
def next_button : Button := ⟨320, 390, 100, 60⟩

/-- `resume_button = Button(140, 400, 200, 70)`. -/
def resume_button : Button := ⟨140, 400, 200, 70⟩

/-- `PRESET_BUTTON_START_Y = 20` (input_handler.py). -/
def PRESET_BUTTON_START_Y : Int := 20

/-- `PRESET_BUTTON_HEIGHT = 70`. -/
def PRESET_BUTTON_HEIGHT : Int := 70

/-- `PRESET_BUTTON_GAP = 12`. -/
def PRESET_BUTTON_GAP : Int := 12

/-- `PRESET_BUTTON_MARGIN_X = 20`. -/
def PRESET_BUTTON_MARGIN_X : Int := 20

/-- Loop body of `rebuild_preset_buttons`: walks the label list carrying the
1-based WiiM preset number `wiim_num` and the running y coordinate, creating
a button and recording the preset number only for slots whose label is not
`None` (`if label is not None:` in the source). -/
def rebuildAux (button_width : Int) (wiim_num : Nat) (y : Int) :
    List (Option String) → List Button × List Nat
  | [] => ([], [])
  | none :: rest => rebuildAux button_width (wiim_num + 1) y rest
  | some _ :: rest =>
      let r := rebuildAux button_width (wiim_num + 1)
        (y + PRESET_BUTTON_HEIGHT + PRESET_BUTTON_GAP) rest
      (⟨PRESET_BUTTON_MARGIN_X, y, button_width, PRESET_BUTTON_HEIGHT⟩ :: r.1,
       wiim_num :: r.2)

/-- `rebuild_preset_buttons(labels, button_width)` (input_handler.py):
returns the rebuilt parallel lists `(preset_buttons, preset_button_numbers)`.
The Python loop is `for wiim_num, label in enumerate(labels, start=1)`. -/
def rebuild_preset_buttons (labels : List (Option String)) (button_width : Int) :
    List Button × List Nat :=
  rebuildAux button_width 1 PRESET_BUTTON_START_Y labels

end InputHandler

namespace TouchManager

open InputHandler

/-- `self.button_timeout_ms = 10000` (TouchManager.__init__). -/
def button_timeout_ms : Int := 10000

/-- Mutable fields of a `TouchManager` instance.  `last_touch_time` is written
by the poll loop but never read elsewhere; it is kept for fidelity. -/
structure TMState where
  enabled : Bool
  screen_touched : Bool
  last_touch_x : Int
  last_touch_y : Int
  last_touch_time : Int
  playback_buttons_visible : Bool
  resume_button_visible : Bool
  last_button_show_time : Int
  last_resume_button_show_time : Int
deriving Repr, DecidableEq

/-- Field values set by `TouchManager.__init__`. -/
def TMState.init : TMState :=
  { enabled := false, screen_touched := false, last_touch_x := 0, last_touch_y := 0
    last_touch_time := 0, playback_buttons_visible := false
    resume_button_visible := false, last_button_show_time := 0
    last_resume_button_show_time := 0 }

/-- One raw hardware sample, the `presto.touch_a` record read by `_poll_loop`. -/
structure RawSample where
  touched : Bool
  x : Int
  y : Int
deriving Repr, DecidableEq

/-- One iteration of the enabled branch of `_poll_loop`: if the sample reports
a touch, latch `screen_touched` and record the coordinates and time.  When the
manager is disabled the loop body does nothing (it only sleeps longer). -/
def pollSample (s : TMState) (a : RawSample) (now : Int) : TMState :=
  if s.enabled then
    if a.touched then
      { s with screen_touched := true, last_touch_x := a.x, last_touch_y := a.y
               last_touch_time := now }
    else s
  else s

/-- `TouchManager.was_touched`: consume the latched touch, returning
`(touched, x, y)` and the updated state. -/
def was_touched (s : TMState) : (Bool × Int × Int) × TMState :=
  if s.screen_touched then
    ((true, s.last_touch_x, s.last_touch_y), { s with screen_touched := false })
  else
    ((false, 0, 0), s)

/-- `TouchManager.enable` (task bookkeeping aside). -/
def enable (s : TMState) : TMState := { s with enabled := true }

/-- `TouchManager.disable`. -/
def disable (s : TMState) : TMState := { s with enabled := false }

/-- `TouchManager.is_touch_in_button`: half-open rectangle containment
`(bx <= x < bx + bw) and (by <= y < by + bh)`. -/
def is_touch_in_button (x y : Int) (b : Button) : Bool :=
  (b.x ≤ x && x < b.x + b.w) && (b.y ≤ y && y < b.y + b.h)

/-- Interleaved events seen by a `TouchManager`: a raw hardware sample taken
by `_poll_loop`, a `was_touched` consume call, or enable/disable. -/
inductive TMEvent
  | sample (a : RawSample) (now : Int)
  | consume
  | enable
  | disable
deriving Repr, DecidableEq

/-- Apply one event; a `consume` event also yields the `touched` component of
the value `was_touched` returned. -/
def stepEvent (s : TMState) (e : TMEvent) : TMState × Option Bool :=
  match e with
  | TMEvent.sample a now => (pollSample s a now, none)
  | TMEvent.consume =>
      let r := was_touched s
      (r.2, some r.1.1)
  | TMEvent.enable => (enable s, none)
  | TMEvent.disable => (disable s, none)

/-- Run a sequence of events, collecting the `touched` results of the consume
calls in order. -/
def runEvents (s : TMState) : List TMEvent → TMState × List Bool
  | [] => (s, [])
  | e :: rest =>
      let r := stepEvent s e
      let rr := runEvents r.1 rest
      (rr.1, match r.2 with
             | some b => b :: rr.2
             | none => rr.2)

/-- The raw `touched` bits of the sample events of a trace, in order. -/
def sampleBools (es : List TMEvent) : List Bool :=
  es.filterMap fun e =>
    match e with
    | TMEvent.sample a _ => some a.touched
    | _ => none

/-- Count the maximal contiguous runs of `true` in a boolean sequence, given
the previous sample value. -/
def countRunsFrom (prev : Bool) : List Bool → Nat
  | [] => 0
  | b :: rest => (if b && !prev then 1 else 0) + countRunsFrom b rest

/-- Number of contiguous touched runs in a boolean sample sequence. -/
def countRuns (l : List Bool) : Nat := countRunsFrom false l

/-- Whether an event is a raw sample reporting a touch. -/
def isTouchedSample : TMEvent → Bool
  | TMEvent.sample a _ => a.touched
  | _ => false

/-- Intents returned by `handle_touch_on_playing_screen`. -/
inductive PlayAction
  | show_buttons
  | hide_buttons
  | prev
  | pause
  | next
deriving Repr, DecidableEq

/-- `TouchManager.handle_touch_on_playing_screen`, with `time.ticks_ms()`
passed in as `now`.  Returns the updated state and the intent (`None` in the
source becomes `none`). -/
def handle_touch_on_playing_screen (s : TMState) (now : Int) :
    TMState × Option PlayAction :=
  let r := was_touched s
  let touched := r.1.1
  let x := r.1.2.1
  let y := r.1.2.2
  let s1 := r.2
  if touched then
    let in_prev := is_touch_in_button x y prev_button
    let in_pause := is_touch_in_button x y pause_button
    let in_next := is_touch_in_button x y next_button
    if s1.playback_buttons_visible then
      if in_prev then
        ({ s1 with playback_buttons_visible := false }, some PlayAction.prev)
      else if in_pause then
        ({ s1 with playback_buttons_visible := false }, some PlayAction.pause)
      else if in_next then
        ({ s1 with playback_buttons_visible := false }, some PlayAction.next)
      else
        ({ s1 with playback_buttons_visible := false }, some PlayAction.hide_buttons)
    else
      ({ s1 with playback_buttons_visible := true, last_button_show_time := now },
       some PlayAction.show_buttons)
  else
    if s1.playback_buttons_visible then
      if now - s1.last_button_show_time > button_timeout_ms then
        ({ s1 with playback_buttons_visible := false }, some PlayAction.hide_buttons)
      else (s1, none)
    else (s1, none)

/-- Intents returned by `handle_touch_on_clock_screen`. -/
inductive ClockAction
  | show_resume
  | show_presets
  | hide_buttons
  | resume
  | preset (n : Nat)
deriving Repr, DecidableEq

/-- The `for i, preset_btn in enumerate(preset_buttons)` search of
`handle_touch_on_clock_screen`: the first hit yields `i + 1`. -/
def findPreset (x y : Int) : List Button → Nat → Option Nat
  | [], _ => none
  | b :: rest, i =>
      if is_touch_in_button x y b then some (i + 1) else findPreset x y rest (i + 1)

/-- `TouchManager.handle_touch_on_clock_screen`.  The module-global
`preset_buttons` list is passed in as `preset_btns`. -/
def handle_touch_on_clock_screen (s : TMState) (now : Int)
    (preset_btns : List Button) : TMState × Option ClockAction :=
  let r := was_touched s
  let touched := r.1.1
  let x := r.1.2.1
  let y := r.1.2.2
  let s1 := r.2
  if touched then
    let in_resume := is_touch_in_button x y resume_button
    let in_preset := findPreset x y preset_btns 0
    if s1.resume_button_visible then
      if in_resume then
        ({ s1 with resume_button_visible := false }, some ClockAction.resume)
      else
        match in_preset with
        | some n =>
            ({ s1 with resume_button_visible := false }, some (ClockAction.preset n))
        | none => (s1, some ClockAction.show_presets)
    else
      ({ s1 with resume_button_visible := true, last_resume_button_show_time := now },
       some ClockAction.show_resume)
  else
    if s1.resume_button_visible then
      if now - s1.last_resume_button_show_time > button_timeout_ms then
        ({ s1 with resume_button_visible := false }, some ClockAction.hide_buttons)
      else (s1, none)
    else (s1, none)

/-- `are_playback_buttons_visible`. -/
def are_playback_buttons_visible (s : TMState) : Bool := s.playback_buttons_visible

/-- `is_resume_button_visible`. -/
def is_resume_button_visible (s : TMState) : Bool := s.resume_button_visible

/-- `hide_playback_buttons`. -/
def hide_playback_buttons (s : TMState) : TMState :=
  { s with playback_buttons_visible := false }

/-- `hide_resume_button`. -/
def hide_resume_button (s : TMState) : TMState :=
  { s with resume_button_visible := false }

/-- `show_resume_button`, with `time.ticks_ms()` passed in as `now`. -/
def show_resume_button (s : TMState) (now : Int) : TMState :=
  { s with resume_button_visible := true, last_resume_button_show_time := now }

end TouchManager

namespace WiimClient

/-- The byte string `b"OK"`. -/
def OK_BYTES : List Nat := [79, 75]

/-- Scan for the two-byte subsequence `b"OK"` inside an HTTP response body
(the `if b"OK" in raw:` test of `wiim_client.py`). -/
def containsOK : List Nat → Bool
  | 79 :: 75 :: _ => true
  | _ :: rest => containsOK rest
  | [] => false

/-- `wiim_client.load_preset(preset_number)`.  The HTTP layer is an oracle:
`resp = none` models `http_get` raising or returning a falsy value is split
as follows — `none` is an exception, `some []` an empty response; both take
the failure path.  The result pairs the returned boolean with the number of
`http_get` calls performed. -/
def load_preset (preset_number : Int) (resp : Option (List Nat)) : Bool × Nat :=
  if preset_number < 1 ∨ preset_number > 4 then
    (false, 0)
  else
    match resp with
    | none => (false, 1)
    | some raw =>
        if raw = [] then (false, 1)
        else if containsOK raw then (true, 1)
        else (false, 1)

end WiimClient

namespace Monitor

open InputHandler TouchManager

/-- `POLL_INTERVAL_SLOW_MS = 10000` (config.py). -/
def POLL_INTERVAL_SLOW_MS : Int := 10000

/-- `POLL_INTERVAL_FAST_MS = 1000` (config.py). -/
def POLL_INTERVAL_FAST_MS : Int := 1000

/-- `TRACK_END_THRESHOLD_S = 5` (config.py). -/
def TRACK_END_THRESHOLD_S : Int := 5

/-- The two screen-state constants `STATE_CLOCK` and `STATE_PLAYING` of
main.py; the `screen_state` variable can also be `None`. -/
inductive Screen
  | clock
  | playing
deriving Repr, DecidableEq

/-- The local mutable state of the `monitor()` loop relevant to one cycle,
together with the `TouchManager` instance it owns. -/
structure MonState where
  screen_state : Option Screen
  player_state : Option String
  last_track_id : Option String
  last_art_url : Option Bool
  cached_art_url : Option String
  art_fetch_failures : Nat
  status_failures : Nat
  last_buttons_visible : Bool
  last_minute : Int
  last_weather_desc : String
  last_status_fetch : Int
deriving Repr, DecidableEq

/-- A successful `fetch_player_status()` payload, with metadata text fields
already hex-decoded.  `status_field` is the raw `"status"` entry (absent
becomes the default `"stop"` via `getD` below); `totlen`/`curpos` are `none`
when the source `int(...)` conversion would raise. -/
structure Status where
  status_field : Option String
  title : String
  artist : String
  album : String
  totlen : Option Int
  curpos : Option Int
deriving Repr, DecidableEq

/-- Oracle inputs consumed by one iteration of the monitor loop: the clock
reading, the current module-global preset button list, and the results of the
external calls the iteration may make. -/
structure CycleEnv where
  now : Int
  preset_btns : List Button
  fetch_status : Option Status
  cmd_ok : Bool
  meta : Option (Option String)
  art_displayed : Bool
  weather_desc : String
  current_minute : Int
deriving Repr, DecidableEq

/-- Transport commands a cycle can issue via the music client. -/
inductive Cmd
  | pause
  | resume
  | next
  | prev
  | preset (n : Nat)
deriving Repr, DecidableEq

/-- Observable external calls made during one cycle. -/
structure Effects where
  fetch_status_called : Bool
  fetch_meta_called : Bool
  draw_track_called : Bool
  draw_clock_called : Bool
  cmd_issued : Option Cmd
deriving Repr, DecidableEq

/-- No external call performed. -/
def noEffects : Effects :=
  { fetch_status_called := false, fetch_meta_called := false
    draw_track_called := false, draw_clock_called := false, cmd_issued := none }

/-- Combined loop state: monitor locals plus the touch manager. -/
structure LoopState where
  mon : MonState
  tm : TMState
deriving Repr, DecidableEq

/-- Backoff delay `min(3000 * status_failures, 15000)` from the status-fetch
failure branch of the monitor loop. -/
def backoff_ms (failureCount : Nat) : Nat := min (3000 * failureCount) 15000

/-- Status-fetch failure branch (main.py lines 313-331): increment the
counter; at 8 consecutive failures force the clock screen (drawing it only
if not already shown) and reset the counter, otherwise back off the next
fetch.  `last_status_fetch` has already been set to `now`.  The returned
boolean records whether `draw_clock` was called. -/
def statusFailureStep (s : MonState) (now poll_interval : Int) : MonState × Bool :=
  let s := { s with status_failures := s.status_failures + 1 }
  if s.status_failures ≥ 8 then
    if s.screen_state ≠ some Screen.clock then
      ({ s with screen_state := some Screen.clock, status_failures := 0 }, true)
    else
      ({ s with status_failures := 0 }, false)
  else
    ({ s with last_status_fetch :=
        now - poll_interval + (backoff_ms s.status_failures : Int) }, false)

/-- Clock branch of the status handler (main.py lines 341-370): the player is
not `"play"`; redraw the clock only when the screen was not already the
clock, the displayed minute changed, or the weather string changed.  The
returned boolean records whether `draw_clock` was called. -/
def clockStatusBranch (s : MonState) (env : CycleEnv) : MonState × Bool :=
  let weather_changed := env.weather_desc ≠ s.last_weather_desc
  if s.screen_state ≠ some Screen.clock ∨ env.current_minute ≠ s.last_minute ∨
      weather_changed then
    ({ s with screen_state := some Screen.clock, last_minute := env.current_minute
              last_weather_desc := env.weather_desc }, true)
  else
    (s, false)

/-- Python truthiness of the `cached_art_url` value: `None` and the empty
string are falsy. -/
def truthyStr : Option String → Bool
  | none => false
  | some s => s ≠ ""

/-- TrackIdentity string `"{}|{}|{}".format(title, artist, album)`. -/
def trackIdOf (st : Status) : String :=
  st.title ++ "|" ++ st.artist ++ "|" ++ st.album

/-- Near-end-of-track poll-speedup (main.py lines 434-444): when fewer than
`TRACK_END_THRESHOLD_S` seconds remain, rewind `last_status_fetch` so the
next fetch happens after `POLL_INTERVAL_FAST_MS`.  A `none` in
`totlen`/`curpos` models the `int(...)` conversion raising, which skips the
whole block. -/
def trackEndAdjust (s : MonState) (st : Status) (now poll_interval : Int) :
    MonState :=
  match st.totlen, st.curpos with
  | some totlen, some curpos =>
      if totlen > 0 ∧ curpos ≥ 0 then
        if (totlen - curpos).fdiv 1000 ≤ TRACK_END_THRESHOLD_S then
          { s with last_status_fetch := now - poll_interval + POLL_INTERVAL_FAST_MS }
        else s
      else s
  | _, _ => s

/-- Playing branch of the status handler (main.py lines 376-444): decide
whether a redraw is needed, conditionally refetch metadata, draw the track,
update the caches and counters, then apply the near-end-of-track poll
adjustment. -/
def playingStatusBranch (s : MonState) (tm : TMState) (st : Status)
    (env : CycleEnv) (poll_interval : Int) : MonState × Effects :=
  let track_id := trackIdOf st
  let buttons_visible := are_playback_buttons_visible tm
  let track_changed := some track_id ≠ s.last_track_id
  let returning_from_clock := s.screen_state ≠ some Screen.playing
  let art_needs_retry := s.last_art_url = some false ∧ s.art_fetch_failures < 3
  let buttons_changed := buttons_visible ≠ s.last_buttons_visible
  let needs_redraw :=
    track_changed ∨ returning_from_clock ∨ art_needs_retry ∨ buttons_changed
  if needs_redraw then
    let fetch_meta := track_changed ∨ returning_from_clock ∨ s.cached_art_url = none
    let cached_art_url :=
      if fetch_meta then
        match env.meta with
        | some m => m
        | none => s.cached_art_url
      else s.cached_art_url
    let art_displayed := env.art_displayed
    let s1 := { s with
      last_track_id := some track_id
      last_buttons_visible := buttons_visible
      screen_state := some Screen.playing
      last_minute := -1
      cached_art_url := cached_art_url }
    let s2 :=
      if truthyStr cached_art_url then
        { s1 with
          last_art_url := some art_displayed
          art_fetch_failures :=
            if art_displayed then 0 else s1.art_fetch_failures + 1 }
      else
        { s1 with last_art_url := none, art_fetch_failures := 0 }
    (trackEndAdjust s2 st env.now poll_interval,
     { noEffects with fetch_status_called := true
                      fetch_meta_called := fetch_meta
                      draw_track_called := true })
  else
    (trackEndAdjust s st env.now poll_interval,
     { noEffects with fetch_status_called := true })

/-- Periodic status-fetch section of the cycle (main.py lines 289-447):
compute the poll interval from the screen and button visibility, and if the
fetch is due, dispatch on the fetch result and the reported player state. -/
def fetchSection (s : MonState) (tm : TMState) (env : CycleEnv) :
    LoopState × Effects :=
  let buttons_visible :=
    if s.screen_state = some Screen.clock then is_resume_button_visible tm
    else are_playback_buttons_visible tm
  let poll_interval : Int :=
    if s.screen_state = some Screen.clock then
      if buttons_visible then 1000 else 5000
    else
      if buttons_visible then 2000 else POLL_INTERVAL_SLOW_MS
  if env.now - s.last_status_fetch ≥ poll_interval then
    let s := { s with last_status_fetch := env.now }
    match env.fetch_status with
    | none =>
        let r := statusFailureStep s env.now poll_interval
        ({ mon := r.1, tm := tm },
         { noEffects with fetch_status_called := true, draw_clock_called := r.2 })
    | some st =>
        let s := { s with status_failures := 0 }
        let player_state := st.status_field.getD "stop"
        let s := { s with player_state := some player_state }
        if player_state ≠ "play" then
          let r := clockStatusBranch s env
          ({ mon := r.1, tm := tm },
           { noEffects with fetch_status_called := true, draw_clock_called := r.2 })
        else
          let r := playingStatusBranch s tm st env poll_interval
          ({ mon := r.1, tm := tm }, r.2)
  else
    ({ mon := s, tm := tm }, noEffects)

/-- Clock-screen touch dispatch of the cycle (main.py lines 179-235), entered
with the state the router returned.  Every branch of the source ends in
`continue`; the `resume` intent is handled only when the player is paused —
otherwise the chain falls through to the fetch section. -/
def clockTouchStep (s : MonState) (tm1 : TMState) (a : ClockAction)
    (env : CycleEnv) : LoopState × Effects :=
  match a with
  | ClockAction.show_resume =>
      ({ mon := { s with last_status_fetch := env.now }, tm := tm1 },
       { noEffects with draw_clock_called := true })
  | ClockAction.show_presets =>
      ({ mon := { s with last_status_fetch := env.now }, tm := tm1 },
       { noEffects with draw_clock_called := true })
  | ClockAction.hide_buttons =>
      ({ mon := { s with last_status_fetch := env.now }, tm := tm1 },
       { noEffects with draw_clock_called := true })
  | ClockAction.resume =>
      if s.player_state = some "pause" then
        if env.cmd_ok then
          ({ mon := { s with screen_state := none, player_state := none
                             last_status_fetch := 0 }
             tm := hide_resume_button tm1 },
           { noEffects with cmd_issued := some Cmd.resume })
        else
          ({ mon := s, tm := tm1 }, { noEffects with cmd_issued := some Cmd.resume })
      else
        fetchSection s tm1 env
  | ClockAction.preset n =>
      if env.cmd_ok then
        ({ mon := { s with screen_state := none, player_state := none
                           last_status_fetch := 0 }
           tm := hide_resume_button tm1 },
         { noEffects with cmd_issued := some (Cmd.preset n) })
      else
        ({ mon := s, tm := tm1 }, { noEffects with cmd_issued := some (Cmd.preset n) })

/-- Playing-screen touch dispatch of the cycle (main.py lines 237-287). -/
def playingTouchStep (s : MonState) (tm1 : TMState) (a : PlayAction)
    (env : CycleEnv) : LoopState × Effects :=
  match a with
  | PlayAction.show_buttons =>
      ({ mon := { s with last_status_fetch := env.now }, tm := tm1 }, noEffects)
  | PlayAction.hide_buttons =>
      ({ mon := { s with last_status_fetch := 0 }, tm := tm1 }, noEffects)
  | PlayAction.pause =>
      if env.cmd_ok then
        ({ mon := { s with screen_state := some Screen.clock
                           last_status_fetch := env.now }
           tm := show_resume_button (hide_playback_buttons tm1) env.now },
         { noEffects with cmd_issued := some Cmd.pause, draw_clock_called := true })
      else
        ({ mon := s, tm := tm1 }, { noEffects with cmd_issued := some Cmd.pause })
  | PlayAction.next =>
      if env.cmd_ok then
        ({ mon := { s with last_track_id := none, last_status_fetch := 0 }
           tm := tm1 },
         { noEffects with cmd_issued := some Cmd.next })
      else
        ({ mon := s, tm := tm1 }, { noEffects with cmd_issued := some Cmd.next })
  | PlayAction.prev =>
      if env.cmd_ok then
        ({ mon := { s with last_track_id := none, last_status_fetch := 0 }
           tm := tm1 },
         { noEffects with cmd_issued := some Cmd.prev })
      else
        ({ mon := s, tm := tm1 }, { noEffects with cmd_issued := some Cmd.prev })

/-- One iteration of the `while True` body of `monitor()`, from the
touch-priority section onward (the WiFi/NTP/preset upkeep of lines 121-171
is outside the modelled slice; it precedes touch handling and none of the
verified properties concern it).  Touch routing runs first; an intent that is
handled ends the iteration (`continue`) before the fetch section. -/
def monitorCycle (ls : LoopState) (env : CycleEnv) : LoopState × Effects :=
  let s := ls.mon
  match s.screen_state with
  | some Screen.clock =>
      let r := handle_touch_on_clock_screen ls.tm env.now env.preset_btns
      match r.2 with
      | some a => clockTouchStep s r.1 a env
      | none => fetchSection s r.1 env
  | some Screen.playing =>
      let r := handle_touch_on_playing_screen ls.tm env.now
      match r.2 with
      | some a => playingTouchStep s r.1 a env
      | none => fetchSection s r.1 env
  | none => fetchSection s ls.tm env

end Monitor

namespace PresetRegistry

open InputHandler

/-- The pair of module globals `(preset_buttons, preset_button_numbers)` of
input_handler.py, as observed by a hit-test. -/
abbrev Reg := List Button × List Nat

/-- One mutation statement of `rebuild_preset_buttons` on the globals: the two
initial clearing assignments and the two per-slot appends. -/
inductive RegOp
  | clearButtons
  | clearNumbers
  | pushButton (b : Button)
  | pushNumber (n : Nat)
deriving Repr, DecidableEq

/-- Apply one mutation to the registry. -/
def applyOp (r : Reg) : RegOp → Reg
  | RegOp.clearButtons => ([], r.2)
  | RegOp.clearNumbers => (r.1, [])
  | RegOp.pushButton b => (r.1 ++ [b], r.2)
  | RegOp.pushNumber n => (r.1, r.2 ++ [n])

/-- Apply a sequence of mutations. -/
def runOps (r : Reg) (ops : List RegOp) : Reg := ops.foldl applyOp r

/-- The per-slot append sequence of the rebuild loop. -/
def rebuildOpsAux (button_width : Int) (wiim_num : Nat) (y : Int) :
    List (Option String) → List RegOp
  | [] => []
  | none :: rest => rebuildOpsAux button_width (wiim_num + 1) y rest
  | some _ :: rest =>
      RegOp.pushButton ⟨PRESET_BUTTON_MARGIN_X, y, button_width, PRESET_BUTTON_HEIGHT⟩ ::
      RegOp.pushNumber wiim_num ::
      rebuildOpsAux button_width (wiim_num + 1)
        (y + PRESET_BUTTON_HEIGHT + PRESET_BUTTON_GAP) rest

/-- The full mutation sequence `rebuild_preset_buttons` performs on the
globals, one `RegOp` per source statement, in source order. -/
def rebuildOps (labels : List (Option String)) (button_width : Int) : List RegOp :=
  RegOp.clearButtons :: RegOp.clearNumbers ::
    rebuildOpsAux button_width 1 PRESET_BUTTON_START_Y labels

/-- Cooperative-scheduling view of the rebuild: under uasyncio a task switch
can occur only at an `await`; `rebuild_preset_buttons` contains none, so its
whole mutation sequence is a single uninterruptible block. -/
def rebuildBlocks (labels : List (Option String)) (button_width : Int) :
    List (List RegOp) :=
  [rebuildOps labels button_width]

/-- Registry value another task observes after the rebuilding task has
completed `k` of its blocks. -/
def observeAfterBlocks (r : Reg) (blocks : List (List RegOp)) (k : Nat) : Reg :=
  (blocks.take k).foldl runOps r

end PresetRegistry

section Fixtures

open InputHandler TouchManager Monitor

/-- Touch-manager state seen by the command branches at the moment a
transport command is issued: the state the router returned for the current
screen (the router itself may have already flipped a visibility flag while
resolving the touch). -/
def Monitor.routedTM (ls : LoopState) (env : CycleEnv) : TMState :=
  match ls.mon.screen_state with
  | some Screen.clock =>
      (handle_touch_on_clock_screen ls.tm env.now env.preset_btns).1
  | some Screen.playing => (handle_touch_on_playing_screen ls.tm env.now).1
  | none => ls.tm

/-- Touch-manager state with both button sets visible since tick 0 and no
pending touch, used to exhibit the timeout boundary. -/
def timedOutTM : TMState :=
  { TMState.init with enabled := true, playback_buttons_visible := true
                      resume_button_visible := true }

/-- Event trace with one contiguous touched run of two samples, a consume
call interleaved between them. -/
def c1trace : List TMEvent :=
  [TMEvent.enable, TMEvent.sample ⟨true, 10, 20⟩ 0, TMEvent.consume,
   TMEvent.sample ⟨true, 11, 21⟩ 50, TMEvent.consume]

/-- Monitor state with seven consecutive status failures on the playing
screen. -/
def failState7 : MonState :=
  { screen_state := some Screen.playing, player_state := some "play"
    last_track_id := none, last_art_url := none, cached_art_url := none
    art_fetch_failures := 0, status_failures := 7, last_buttons_visible := false
    last_minute := -1, last_weather_desc := "", last_status_fetch := 0 }

/-- Touch state on the clock screen: resume button visible and a pending
touch latched inside the resume-button region. -/
def c3tm : TMState :=
  { TMState.init with enabled := true, resume_button_visible := true
                      screen_touched := true, last_touch_x := 200
                      last_touch_y := 420 }

/-- Clock-screen touch state with no buttons visible and a pending touch,
so the router yields the show-resume intent. -/
def c3wtm : TMState :=
  { TMState.init with enabled := true, screen_touched := true
                      last_touch_x := 5, last_touch_y := 5 }

/-- Monitor locals on the clock screen with a stopped player. -/
def c3mon : MonState :=
  { screen_state := some Screen.clock, player_state := some "stop"
    last_track_id := none, last_art_url := none, cached_art_url := none
    art_fetch_failures := 0, status_failures := 0, last_buttons_visible := false
    last_minute := -1, last_weather_desc := "", last_status_fetch := 0 }

/-- Environment with a due status poll whose fetch fails. -/
def c3env : CycleEnv :=
  { now := 50000, preset_btns := [], fetch_status := none, cmd_ok := false
    meta := none, art_displayed := false, weather_desc := ""
    current_minute := 0 }

/-- A playing status whose track identity is `T|A|B`. -/
def c4st : Status :=
  { status_field := some "play", title := "T", artist := "A", album := "B"
    totlen := some 200000, curpos := some 10000 }

/-- Monitor locals already on the playing screen showing track `T|A|B`,
with a failed art decode recorded and retry budget remaining. -/
def c4mon : MonState :=
  { screen_state := some Screen.playing, player_state := some "play"
    last_track_id := some "T|A|B", last_art_url := some false
    cached_art_url := some "art", art_fetch_failures := 0, status_failures := 0
    last_buttons_visible := false, last_minute := -1, last_weather_desc := ""
    last_status_fetch := 0 }

/-- Same locals with the art already displayed, so no retry is pending. -/
def c4wmon : MonState := { c4mon with last_art_url := some true }

/-- Environment with a due status poll returning the playing status. -/
def c4env : CycleEnv :=
  { now := 20000, preset_btns := [], fetch_status := some c4st, cmd_ok := false
    meta := some (some "art"), art_displayed := true, weather_desc := ""
    current_minute := 0 }

/-- Playing-screen touch state: playback buttons visible and a pending touch
latched inside the pause-button region. -/
def c5tm : TMState :=
  { TMState.init with enabled := true, playback_buttons_visible := true
                      screen_touched := true, last_touch_x := 200
                      last_touch_y := 400 }

/-- Monitor locals on the clock screen while the player reports playing,
with the track unchanged and an art URL cached. -/
def c7mon : MonState :=
  { screen_state := some Screen.clock, player_state := some "pause"
    last_track_id := some "T|A|B", last_art_url := some true
    cached_art_url := some "art", art_fetch_failures := 0, status_failures := 0
    last_buttons_visible := false, last_minute := 0, last_weather_desc := ""
    last_status_fetch := 0 }

end Fixtures

section Helpers

open InputHandler TouchManager PresetRegistry

/-- Numbers list produced by the rebuild loop: exactly the 1-based indices of
the slots whose label is present, in order, and the buttons list is parallel
to it. -/
theorem rebuildAux_spec (w : Int) (labels : List (Option String)) :
    ∀ (k : Nat) (y : Int),
      (rebuildAux w k y labels).2 =
        (List.enumFrom k labels).filterMap
          (fun p => if p.2.isSome then some p.1 else none) ∧
      (rebuildAux w k y labels).1.length = (rebuildAux w k y labels).2.length := by
  induction labels with
  | nil => intro k y; simp [rebuildAux]
  | cons hd tl ih =>
      intro k y
      cases hd with
      | none =>
          simpa [rebuildAux, List.enumFrom_cons] using ih (k + 1) y
      | some a =>
          have h := ih (k + 1) (y + PRESET_BUTTON_HEIGHT + PRESET_BUTTON_GAP)
          simp [rebuildAux, List.enumFrom_cons, h.1, h.2]

/-- Running the rebuild's append sequence from any registry contents appends
exactly the functional rebuild's output. -/
theorem runOps_rebuildOpsAux (w : Int) (labels : List (Option String)) :
    ∀ (k : Nat) (y : Int) (bs : List Button) (ns : List Nat),
      runOps (bs, ns) (rebuildOpsAux w k y labels) =
        (bs ++ (rebuildAux w k y labels).1, ns ++ (rebuildAux w k y labels).2) := by
  induction labels with
  | nil => intro k y bs ns; simp [runOps, rebuildOpsAux, rebuildAux]
  | cons hd tl ih =>
      intro k y bs ns
      cases hd with
      | none => simpa [rebuildOpsAux, rebuildAux] using ih (k + 1) y bs ns
      | some a =>
          have h := ih (k + 1) (y + PRESET_BUTTON_HEIGHT + PRESET_BUTTON_GAP)
            (bs ++ [⟨PRESET_BUTTON_MARGIN_X, y, w, PRESET_BUTTON_HEIGHT⟩]) (ns ++ [k])
          simp only [runOps, rebuildOpsAux, rebuildAux, List.foldl_cons, applyOp] at h ⊢
          simp only [List.append_assoc, List.singleton_append] at h
          exact h

/-- A playing-screen router call that yields no intent leaves the touch state
unchanged. -/
theorem playing_router_none_state (s : TouchManager.TMState) (now : Int)
    (h : (TouchManager.handle_touch_on_playing_screen s now).2 = none) :
    (TouchManager.handle_touch_on_playing_screen s now).1 = s := by
  unfold TouchManager.handle_touch_on_playing_screen TouchManager.was_touched at h ⊢
  by_cases ht : s.screen_touched
  · simp only [ht, if_true] at h
    split_ifs at h <;> simp_all
  · simp only [ht] at h ⊢
    simp only [Bool.false_eq_true, if_false] at h ⊢
    split_ifs at h ⊢ <;> rfl

/-- The periodic-fetch section never issues a transport command. -/
theorem fetchSection_cmd_none (s : Monitor.MonState) (tm : TouchManager.TMState)
    (env : Monitor.CycleEnv) :
    (Monitor.fetchSection s tm env).2.cmd_issued = none := by
  obtain ⟨now, pb, fs, cmdok, meta, artd, wd, cm⟩ := env
  unfold Monitor.fetchSection Monitor.playingStatusBranch
  cases fs <;> dsimp only <;> split_ifs <;> simp [Monitor.noEffects]

/-- The playing status branch skips the track redraw when the screen is
already Playing, the track identity is unchanged, no art retry is pending and
the button visibility is unchanged. -/
theorem playingStatusBranch_no_draw (s : Monitor.MonState)
    (tm : TouchManager.TMState) (st : Monitor.Status) (env : Monitor.CycleEnv)
    (p : Int)
    (hscr : s.screen_state = some Monitor.Screen.playing)
    (htrack : s.last_track_id = some (Monitor.trackIdOf st))
    (hbtn : tm.playback_buttons_visible = s.last_buttons_visible)
    (hart : ¬(s.last_art_url = some false ∧ s.art_fetch_failures < 3)) :
    (Monitor.playingStatusBranch s tm st env p).2.draw_track_called = false := by
  unfold Monitor.playingStatusBranch
  dsimp only
  split
  · rename_i h
    exfalso
    rcases h with h | h | h | h
    · exact h htrack.symm
    · exact h hscr
    · exact hart h
    · exact h hbtn
  · simp [Monitor.noEffects]

/-- The playing status branch skips the metadata fetch when the screen is
already Playing, the track identity is unchanged and an art URL is cached. -/
theorem playingStatusBranch_no_meta (s : Monitor.MonState)
    (tm : TouchManager.TMState) (st : Monitor.Status) (env : Monitor.CycleEnv)
    (p : Int)
    (hscr : s.screen_state = some Monitor.Screen.playing)
    (htrack : s.last_track_id = some (Monitor.trackIdOf st))
    (hcache : s.cached_art_url ≠ none) :
    (Monitor.playingStatusBranch s tm st env p).2.fetch_meta_called = false := by
  unfold Monitor.playingStatusBranch
  dsimp only
  split
  · dsimp only
    rw [decide_eq_false_iff_not]
    rintro (h | h | h)
    · exact h htrack.symm
    · exact h hscr
    · exact hcache h
  · simp [Monitor.noEffects]

/-- In the fetch section, no track redraw happens when the screen is already
Playing, the track identity is unchanged, no art retry is pending and the
button visibility is unchanged. -/
theorem fetchSection_no_redraw (s : Monitor.MonState) (tm : TouchManager.TMState)
    (env : Monitor.CycleEnv)
    (hscr : s.screen_state = some Monitor.Screen.playing)
    (htrack : ∀ st, env.fetch_status = some st →
      s.last_track_id = some (Monitor.trackIdOf st))
    (hbtn : tm.playback_buttons_visible = s.last_buttons_visible)
    (hart : ¬(s.last_art_url = some false ∧ s.art_fetch_failures < 3)) :
    (Monitor.fetchSection s tm env).2.draw_track_called = false := by
  obtain ⟨now, pb, fs, cmdok, meta, artd, wd, cm⟩ := env
  unfold Monitor.fetchSection
  cases fs with
  | none => dsimp only; split_ifs <;> simp [Monitor.noEffects]
  | some st =>
      dsimp only
      split_ifs <;> try simp [Monitor.noEffects]
      all_goals exact playingStatusBranch_no_draw _ _ _ _ _ hscr (htrack st rfl) hbtn hart

/-- In the fetch section, no metadata fetch happens when the screen is
already Playing, the track identity is unchanged and an art URL is cached. -/
theorem fetchSection_no_meta (s : Monitor.MonState) (tm : TouchManager.TMState)
    (env : Monitor.CycleEnv)
    (hscr : s.screen_state = some Monitor.Screen.playing)
    (htrack : ∀ st, env.fetch_status = some st →
      s.last_track_id = some (Monitor.trackIdOf st))
    (hcache : s.cached_art_url ≠ none) :
    (Monitor.fetchSection s tm env).2.fetch_meta_called = false := by
  obtain ⟨now, pb, fs, cmdok, meta, artd, wd, cm⟩ := env
  unfold Monitor.fetchSection
  cases fs with
  | none => dsimp only; split_ifs <;> simp [Monitor.noEffects]
  | some st =>
      dsimp only
      split_ifs <;> try simp [Monitor.noEffects]
      all_goals exact playingStatusBranch_no_meta _ _ _ _ _ hscr (htrack st rfl) hcache

end Helpers

section Claims

open InputHandler TouchManager WiimClient Monitor PresetRegistry

/-- C1 counterexample: the raw samples of `c1trace` form a single contiguous
touched run, yet `was_touched` returns `touched=true` twice, because the
poll loop re-latches `screen_touched` on every touched sample rather than on
touch edges. -/
theorem C1_counterexample :
    countRuns (sampleBools c1trace) = 1 ∧
    ((runEvents TMState.init c1trace).2.count true) = 2 := by
  decide

/-- C1 (amended): `was_touched` always leaves the pending flag cleared, and
once the flag is clear no further `touched=true` is returned until the poll
loop observes another touched sample — delivery is at most once per touched
sample, not per contiguous touched run. -/
theorem C1_touch_consume (s : TMState) (es : List TMEvent) :
    ((was_touched s).2).screen_touched = false ∧
    (s.screen_touched = false → (∀ e ∈ es, isTouchedSample e = false) →
      ((runEvents s es).2.count true) = 0) := by
  constructor
  · unfold was_touched
    split
    · simp
    · simp_all
  · induction es generalizing s with
    | nil => intro _ _; simp [runEvents]
    | cons e rest ih =>
        intro hflag hno
        have hrest : ∀ x ∈ rest, isTouchedSample x = false := by
          intro x hx
          exact hno x (List.mem_cons_of_mem _ hx)
        have he : isTouchedSample e = false := hno e (List.mem_cons_self e rest)
        cases e with
        | sample a now =>
            have ha : a.touched = false := by simpa [isTouchedSample] using he
            have hpoll : (pollSample s a now).screen_touched = false := by
              unfold pollSample
              simp [ha, hflag]
            simpa [runEvents, stepEvent] using ih (pollSample s a now) hpoll hrest
        | consume =>
            have hw : was_touched s = ((false, 0, 0), s) := by
              unfold was_touched
              simp [hflag]
            simpa [runEvents, stepEvent, hw, hflag] using ih s hflag hrest
        | enable =>
            simpa [runEvents, stepEvent, TouchManager.enable, hflag] using
              ih (TouchManager.enable s) (by simp [TouchManager.enable, hflag]) hrest
        | disable =>
            simpa [runEvents, stepEvent, TouchManager.disable, hflag] using
              ih (TouchManager.disable s) (by simp [TouchManager.disable, hflag]) hrest

/-- C1 witness: the amended theorem evaluated on a concrete state and trace. -/
theorem C1_witness :
    ((was_touched TMState.init).2).screen_touched = false ∧
    ((runEvents TMState.init
        [TMEvent.consume, TMEvent.sample ⟨false, 0, 0⟩ 0, TMEvent.consume]).2.count true) = 0 :=
  ⟨(C1_touch_consume TMState.init []).1,
   (C1_touch_consume TMState.init
      [TMEvent.consume, TMEvent.sample ⟨false, 0, 0⟩ 0, TMEvent.consume]).2
      rfl (by decide)⟩

/-- C2: the backoff delay `min(3000 * failureCount, 15000)` is non-decreasing
in the failure count over `1..8` and never exceeds the 15000 ms cap, and on
the cycle where the consecutive-failure count reaches the threshold 8 the
failure step forces the screen state to Clock and resets the counter to 0. -/
theorem C2_backoff_and_threshold :
    (∀ j k : Nat, 1 ≤ j → j ≤ k → k ≤ 8 →
      backoff_ms j ≤ backoff_ms k ∧ backoff_ms k ≤ 15000) ∧
    (∀ (s : MonState) (now p : Int), s.status_failures = 7 →
      (statusFailureStep s now p).1.screen_state = some Screen.clock ∧
      (statusFailureStep s now p).1.status_failures = 0) := by
  constructor
  · intro j k h1 h2 h3
    unfold backoff_ms
    omega
  · intro s now p h
    unfold statusFailureStep
    simp only [h]
    norm_num
    split
    · simp_all
    · simp

/-- C2 witness: the theorem evaluated at failure counts 2 and 3 and at a
concrete state holding seven prior failures. -/
theorem C2_witness :
    backoff_ms 2 ≤ backoff_ms 3 ∧ backoff_ms 3 ≤ 15000 ∧
    (statusFailureStep failState7 100 5000).1.screen_state = some Screen.clock ∧
    (statusFailureStep failState7 100 5000).1.status_failures = 0 := by
  obtain ⟨h1, h2⟩ := C2_backoff_and_threshold
  exact ⟨(h1 2 3 (by decide) (by decide) (by decide)).1,
         (h1 2 3 (by decide) (by decide) (by decide)).2,
         (h2 failState7 100 5000 rfl).1, (h2 failState7 100 5000 rfl).2⟩

/-- C6 counterexample: controls shown at `t0 = 0` with the 10000 ms timeout;
at the first poll with `now = t0 + T` exactly, the claim requires the hide
intent, but both routers emit nothing because the source tests the strict
`elapsed > timeout`. -/
theorem C6_counterexample :
    button_timeout_ms = 10000 ∧
    timedOutTM.last_button_show_time = 0 ∧
    timedOutTM.last_resume_button_show_time = 0 ∧
    (handle_touch_on_playing_screen timedOutTM 10000).2 = none ∧
    (handle_touch_on_clock_screen timedOutTM 10000 []).2 = none := by
  decide

/-- C6 (amended): with controls shown at `t0` and no pending touch, every
poll at `now ≤ t0 + timeout` emits no intent, and every poll at
`now > t0 + timeout` (strictly after the deadline, hence the first such
poll) emits the hide intent and marks the buttons not visible — on both the
playing-screen and the clock-screen routers. -/
theorem C6_button_timeout (s t : TMState) (now t0 : Int) (pb : List Button)
    (hs1 : s.screen_touched = false) (hs2 : s.playback_buttons_visible = true)
    (hs3 : s.last_button_show_time = t0)
    (ht1 : t.screen_touched = false) (ht2 : t.resume_button_visible = true)
    (ht3 : t.last_resume_button_show_time = t0) :
    (now ≤ t0 + button_timeout_ms →
      (handle_touch_on_playing_screen s now).2 = none ∧
      (handle_touch_on_clock_screen t now pb).2 = none) ∧
    (t0 + button_timeout_ms < now →
      (handle_touch_on_playing_screen s now).2 = some PlayAction.hide_buttons ∧
      ((handle_touch_on_playing_screen s now).1).playback_buttons_visible = false ∧
      (handle_touch_on_clock_screen t now pb).2 = some ClockAction.hide_buttons ∧
      ((handle_touch_on_clock_screen t now pb).1).resume_button_visible = false) := by
  have hb : button_timeout_ms = 10000 := rfl
  constructor
  · intro h
    rw [hb] at h
    have c1 : ¬(now - s.last_button_show_time > button_timeout_ms) := by
      rw [hs3, hb]; omega
    have c2 : ¬(now - t.last_resume_button_show_time > button_timeout_ms) := by
      rw [ht3, hb]; omega
    constructor
    · unfold handle_touch_on_playing_screen was_touched
      simp [hs1, hs2, c1]
    · unfold handle_touch_on_clock_screen was_touched
      simp [ht1, ht2, c2]
  · intro h
    rw [hb] at h
    have c1 : now - s.last_button_show_time > button_timeout_ms := by
      rw [hs3, hb]; omega
    have c2 : now - t.last_resume_button_show_time > button_timeout_ms := by
      rw [ht3, hb]; omega
    refine ⟨?_, ?_, ?_, ?_⟩
    · unfold handle_touch_on_playing_screen was_touched
      simp [hs1, hs2, c1]
    · unfold handle_touch_on_playing_screen was_touched
      simp [hs1, hs2, c1]
    · unfold handle_touch_on_clock_screen was_touched
      simp [ht1, ht2, c2]
    · unfold handle_touch_on_clock_screen was_touched
      simp [ht1, ht2, c2]

/-- C6 witness: the amended theorem at `t0 = 0`, one tick past the deadline. -/
theorem C6_witness :
    (10001 ≤ (0 : Int) + button_timeout_ms →
      (handle_touch_on_playing_screen timedOutTM 10001).2 = none ∧
      (handle_touch_on_clock_screen timedOutTM 10001 []).2 = none) ∧
    ((0 : Int) + button_timeout_ms < 10001 →
      (handle_touch_on_playing_screen timedOutTM 10001).2 = some PlayAction.hide_buttons ∧
      ((handle_touch_on_playing_screen timedOutTM 10001).1).playback_buttons_visible = false ∧
      (handle_touch_on_clock_screen timedOutTM 10001 []).2 = some ClockAction.hide_buttons ∧
      ((handle_touch_on_clock_screen timedOutTM 10001 []).1).resume_button_visible = false) :=
  C6_button_timeout timedOutTM timedOutTM 10001 0 [] rfl rfl rfl rfl rfl rfl

/-- C8: for a 4-element label list, the rebuilt preset-number list is exactly
the 1-based indices of the slots whose label is present, in slot order, and
the rebuilt button list is parallel to it (one touch region per present
label, none for an absent label). -/
theorem C8_preset_buttons (labels : List (Option String)) (w : Int)
    (_hlen : labels.length = 4) :
    (rebuild_preset_buttons labels w).2 =
      (List.enumFrom 1 labels).filterMap
        (fun p => if p.2.isSome then some p.1 else none) ∧
    (rebuild_preset_buttons labels w).1.length =
      (rebuild_preset_buttons labels w).2.length :=
  rebuildAux_spec w labels 1 PRESET_BUTTON_START_Y

/-- C8 witness: the theorem at a concrete label list with an absent slot. -/
theorem C8_witness :
    (rebuild_preset_buttons [some "Jazz", none, some "Rock", some "Chill"] 200).2 =
      (List.enumFrom 1 ([some "Jazz", none, some "Rock", some "Chill"] :
          List (Option String))).filterMap
        (fun p => if p.2.isSome then some p.1 else none) ∧
    (rebuild_preset_buttons [some "Jazz", none, some "Rock", some "Chill"] 200).1.length =
      (rebuild_preset_buttons [some "Jazz", none, some "Rock", some "Chill"] 200).2.length :=
  C8_preset_buttons [some "Jazz", none, some "Rock", some "Chill"] 200 rfl

/-- C9: the rebuild's mutation sequence, run to completion, produces exactly
the functional rebuild result; and since `rebuild_preset_buttons` contains no
await point, under the cooperative scheduler it is a single uninterruptible
block, so a hit-test observing at any block boundary sees either the complete
old registry or the complete new one, never a partial mixture. -/
theorem C9_rebuild_atomic (labels : List (Option String)) (w : Int)
    (r : Reg) (k : Nat) :
    runOps r (rebuildOps labels w) = rebuild_preset_buttons labels w ∧
    (observeAfterBlocks r (rebuildBlocks labels w) k = r ∨
     observeAfterBlocks r (rebuildBlocks labels w) k =
       rebuild_preset_buttons labels w) := by
  have hrun : runOps r (rebuildOps labels w) = rebuild_preset_buttons labels w := by
    have h := runOps_rebuildOpsAux w labels 1 PRESET_BUTTON_START_Y [] []
    simp only [runOps, rebuildOps, List.foldl_cons, applyOp] at h ⊢
    simpa [rebuild_preset_buttons] using h
  refine ⟨hrun, ?_⟩
  cases k with
  | zero => left; simp [observeAfterBlocks]
  | succ n =>
      right
      simpa [observeAfterBlocks, rebuildBlocks, runOps] using hrun

/-- C10: an out-of-range preset number is rejected at the client interface:
`load_preset` returns `False` and performs no `http_get` call, whatever the
transport would have answered. -/
theorem C10_load_preset_range (n : Int) (resp : Option (List Nat))
    (h : n < 1 ∨ n > 4) :
    load_preset n resp = (false, 0) := by
  unfold load_preset
  rw [if_pos h]

/-- C10 witness: the theorem at `n = 5` against a transport that would have
acknowledged. -/
theorem C10_witness :
    load_preset 5 (some [79, 75]) = (false, 0) :=
  C10_load_preset_range 5 (some [79, 75]) (by decide)

/-- C3 counterexample: on the clock screen with a stopped player, the router
resolves the touch to the actionable `resume` intent, yet the cycle falls
through the dispatch chain (the `resume` branch is guarded by
`player_state == "pause"`) and performs the status fetch in the same
iteration. -/
theorem C3_counterexample :
    (handle_touch_on_clock_screen c3tm c3env.now c3env.preset_btns).2 =
      some ClockAction.resume ∧
    c3mon.player_state = some "stop" ∧
    (monitorCycle ⟨c3mon, c3tm⟩ c3env).2.fetch_status_called = true := by
  decide

/-- C3 (amended): whenever the router yields an intent the cycle acts on it
and skips the status fetch — for every clock-screen intent except `resume`
while the player is not paused, and for every playing-screen intent. -/
theorem C3_touch_preempts_polling (ls : LoopState) (env : CycleEnv) :
    (∀ a, ls.mon.screen_state = some Screen.clock →
      (handle_touch_on_clock_screen ls.tm env.now env.preset_btns).2 = some a →
      (a = ClockAction.resume → ls.mon.player_state = some "pause") →
      (monitorCycle ls env).2.fetch_status_called = false) ∧
    (∀ a, ls.mon.screen_state = some Screen.playing →
      (handle_touch_on_playing_screen ls.tm env.now).2 = some a →
      (monitorCycle ls env).2.fetch_status_called = false) := by
  constructor
  · intro a hscr hr hres
    unfold monitorCycle
    dsimp only
    rw [hscr]
    dsimp only
    rw [hr]
    dsimp only
    cases a with
    | show_resume => simp [clockTouchStep, noEffects]
    | show_presets => simp [clockTouchStep, noEffects]
    | hide_buttons => simp [clockTouchStep, noEffects]
    | resume =>
        have hp := hres rfl
        simp only [clockTouchStep, if_pos hp]
        split_ifs <;> simp [noEffects]
    | preset n =>
        simp only [clockTouchStep]
        split_ifs <;> simp [noEffects]
  · intro a hscr hr
    unfold monitorCycle
    dsimp only
    rw [hscr]
    dsimp only
    rw [hr]
    dsimp only
    cases a with
    | show_buttons => simp [playingTouchStep, noEffects]
    | hide_buttons => simp [playingTouchStep, noEffects]
    | pause =>
        simp only [playingTouchStep]
        split_ifs <;> simp [noEffects]
    | next =>
        simp only [playingTouchStep]
        split_ifs <;> simp [noEffects]
    | prev =>
        simp only [playingTouchStep]
        split_ifs <;> simp [noEffects]

/-- C3 witness: the amended theorem on a clock-screen cycle whose touch
resolves to the show-resume intent. -/
theorem C3_witness :
    (monitorCycle ⟨c3mon, c3wtm⟩ c3env).2.fetch_status_called = false :=
  (C3_touch_preempts_polling ⟨c3mon, c3wtm⟩ c3env).1 ClockAction.show_resume
    rfl (by decide) (fun h => absurd h (by decide))

/-- C4 counterexample: the screen is already Playing, the fetched status
carries the same track identity, and button visibility is unchanged, yet
`draw_track` is invoked because the previous art decode failed and retry
budget remains. -/
theorem C4_counterexample :
    c4mon.screen_state = some Screen.playing ∧
    c4mon.last_track_id = some (trackIdOf c4st) ∧
    TMState.init.playback_buttons_visible = c4mon.last_buttons_visible ∧
    (monitorCycle ⟨c4mon, TMState.init⟩ c4env).2.draw_track_called = true := by
  decide

/-- C4 (amended): with the screen already Playing, an unchanged track
identity, unchanged button visibility, and additionally no pending art retry
(it is not the case that the last art decode failed with retry budget
remaining), the cycle does not invoke `draw_track`. -/
theorem C4_redraw_suppression (ls : LoopState) (env : CycleEnv) (st : Status)
    (hst : env.fetch_status = some st)
    (_hplay : st.status_field.getD "stop" = "play")
    (hscr : ls.mon.screen_state = some Screen.playing)
    (htrack : ls.mon.last_track_id = some (trackIdOf st))
    (hbtn : ls.tm.playback_buttons_visible = ls.mon.last_buttons_visible)
    (hart : ¬(ls.mon.last_art_url = some false ∧ ls.mon.art_fetch_failures < 3)) :
    (monitorCycle ls env).2.draw_track_called = false := by
  unfold monitorCycle
  dsimp only
  rw [hscr]
  dsimp only
  cases hr : (handle_touch_on_playing_screen ls.tm env.now).2 with
  | some a =>
      cases a <;> simp only [playingTouchStep] <;> (try split_ifs) <;>
        simp [noEffects]
  | none =>
      rw [playing_router_none_state ls.tm env.now hr]
      exact fetchSection_no_redraw ls.mon ls.tm env hscr
        (fun st2 h2 => by
          rw [hst] at h2
          injection h2 with h3
          rw [← h3]
          exact htrack)
        hbtn hart

/-- C4 witness: the amended theorem on a cycle whose previous art decode
succeeded. -/
theorem C4_witness :
    (monitorCycle ⟨c4wmon, TMState.init⟩ c4env).2.draw_track_called = false :=
  C4_redraw_suppression ⟨c4wmon, TMState.init⟩ c4env c4st rfl rfl rfl
    (by decide) rfl (by decide)

/-- C5: when a cycle issues a transport command and the command fails, the
screen state and both button-visibility flags after the cycle equal exactly
their values immediately before the command was issued (the state the router
returned for this cycle). -/
theorem C5_command_failure (ls : LoopState) (env : CycleEnv)
    (hfail : env.cmd_ok = false)
    (hcmd : (monitorCycle ls env).2.cmd_issued.isSome = true) :
    (monitorCycle ls env).1.mon.screen_state = ls.mon.screen_state ∧
    (monitorCycle ls env).1.tm.playback_buttons_visible =
      (routedTM ls env).playback_buttons_visible ∧
    (monitorCycle ls env).1.tm.resume_button_visible =
      (routedTM ls env).resume_button_visible := by
  unfold routedTM
  unfold monitorCycle at hcmd ⊢
  dsimp only at hcmd ⊢
  cases hscr : ls.mon.screen_state with
  | none =>
      rw [hscr] at hcmd
      dsimp only at hcmd
      rw [fetchSection_cmd_none] at hcmd
      simp at hcmd
  | some sc =>
      rw [hscr] at hcmd
      cases sc with
      | clock =>
          dsimp only at hcmd ⊢
          cases hr : (handle_touch_on_clock_screen ls.tm env.now env.preset_btns).2 with
          | none =>
              rw [hr] at hcmd
              dsimp only at hcmd
              rw [fetchSection_cmd_none] at hcmd
              simp at hcmd
          | some a =>
              rw [hr] at hcmd
              dsimp only at hcmd ⊢
              cases a with
              | show_resume => simp [clockTouchStep, noEffects] at hcmd
              | show_presets => simp [clockTouchStep, noEffects] at hcmd
              | hide_buttons => simp [clockTouchStep, noEffects] at hcmd
              | resume =>
                  by_cases hp : ls.mon.player_state = some "pause"
                  · simp [clockTouchStep, hp, hfail, hscr]
                  · simp only [clockTouchStep, if_neg hp] at hcmd
                    rw [fetchSection_cmd_none] at hcmd
                    simp at hcmd
              | preset n => simp [clockTouchStep, hfail, hscr]
      | playing =>
          dsimp only at hcmd ⊢
          cases hr : (handle_touch_on_playing_screen ls.tm env.now).2 with
          | none =>
              rw [hr] at hcmd
              dsimp only at hcmd
              rw [fetchSection_cmd_none] at hcmd
              simp at hcmd
          | some a =>
              rw [hr] at hcmd
              dsimp only at hcmd ⊢
              cases a with
              | show_buttons => simp [playingTouchStep, noEffects] at hcmd
              | hide_buttons => simp [playingTouchStep, noEffects] at hcmd
              | pause => simp [playingTouchStep, hfail, hscr]
              | next => simp [playingTouchStep, hfail, hscr]
              | prev => simp [playingTouchStep, hfail, hscr]

/-- C5 witness: the theorem on a playing-screen cycle whose touch resolves
to the pause command and whose command call fails. -/
theorem C5_witness :
    (monitorCycle ⟨c4mon, c5tm⟩ c4env).1.mon.screen_state = c4mon.screen_state ∧
    (monitorCycle ⟨c4mon, c5tm⟩ c4env).1.tm.playback_buttons_visible =
      (routedTM ⟨c4mon, c5tm⟩ c4env).playback_buttons_visible ∧
    (monitorCycle ⟨c4mon, c5tm⟩ c4env).1.tm.resume_button_visible =
      (routedTM ⟨c4mon, c5tm⟩ c4env).resume_button_visible :=
  C5_command_failure ⟨c4mon, c5tm⟩ c4env rfl (by decide)

/-- C7 counterexample: a redraw-deciding iteration (returning from the clock
screen) with an unchanged track identity and a cached art URL still performs
the metadata fetch, because the fetch condition also fires when the screen
was not already Playing. -/
theorem C7_counterexample :
    c7mon.last_track_id = some (trackIdOf c4st) ∧
    c7mon.cached_art_url = some "art" ∧
    (monitorCycle ⟨c7mon, TMState.init⟩ c4env).2.draw_track_called = true ∧
    (monitorCycle ⟨c7mon, TMState.init⟩ c4env).2.fetch_meta_called = true := by
  decide

/-- C7 (amended): the metadata fetch is performed only when the track
changed, the screen was not already Playing, or no art URL is cached; in
particular, with the screen already Playing, an unchanged track and a cached
URL, no metadata fetch occurs in the iteration. -/
theorem C7_meta_refetch (ls : LoopState) (env : CycleEnv) (st : Status)
    (hst : env.fetch_status = some st)
    (hscr : ls.mon.screen_state = some Screen.playing)
    (htrack : ls.mon.last_track_id = some (trackIdOf st))
    (hcache : ls.mon.cached_art_url ≠ none) :
    (monitorCycle ls env).2.fetch_meta_called = false := by
  unfold monitorCycle
  dsimp only
  rw [hscr]
  dsimp only
  cases hr : (handle_touch_on_playing_screen ls.tm env.now).2 with
  | some a =>
      cases a <;> simp only [playingTouchStep] <;> (try split_ifs) <;>
        simp [noEffects]
  | none =>
      rw [playing_router_none_state ls.tm env.now hr]
      exact fetchSection_no_meta ls.mon ls.tm env hscr
        (fun st2 h2 => by
          rw [hst] at h2
          injection h2 with h3
          rw [← h3]
          exact htrack)
        hcache

/-- C7 witness: the amended theorem on a cycle with the screen already
Playing, an unchanged track and a cached art URL. -/
theorem C7_witness :
    (monitorCycle ⟨c4wmon, TMState.init⟩ c4env).2.fetch_meta_called = false :=
  C7_meta_refetch ⟨c4wmon, TMState.init⟩ c4env c4st rfl rfl (by decide)
    (by decide)

end Claims
